import Mathlib

/-!
Verification development for the gyw job-board backend.

The definitions in this file are a shallow embedding of the TypeScript
backend (Express + Prisma).  Each definition carries a doc comment naming
the source location it was translated from.  Machine numbers are modelled
as `Int`, absent/nullable values as `Option`, and the relational store as
lists of records whose columns follow the Prisma migration
`20250920160716_add_jobrole/migration.sql`.

Store semantics used throughout (documented Prisma behavior):
* an `AND` list of conditions holds when every member holds (empty list
  matches every record);
* an `OR` list holds when some member holds; an empty `OR` list matches
  no records;
* a filter that references a column or relation that does not exist in
  the schema is rejected by the client before any row is read, which the
  route handlers surface as a 500 response through their catch blocks.
-/

namespace Gyw

/-! ## JavaScript string and number primitives -/

/-- Lower-casing of a string, character by character (model of
JavaScript `toLowerCase` for the ASCII data used by the filters). -/
def lowerStr (s : String) : List Char :=
  s.data.map Char.toLower

/-- Whether the list `hay` starts with the list `pat`. -/
def charsStartWith : List Char → List Char → Bool
  | _, [] => true
  | [], _ :: _ => false
  | a :: as, b :: bs => a == b && charsStartWith as bs

/-- Whether `pat` occurs contiguously inside `hay`. -/
def charsContain : List Char → List Char → Bool
  | [], pat => pat.isEmpty
  | c :: rest, pat => charsStartWith (c :: rest) pat || charsContain rest pat

/-- Case-insensitive substring test: model of a Prisma
`contains / mode: insensitive` string filter. -/
def containsInsensitive (hay needle : String) : Bool :=
  charsContain (lowerStr hay) (lowerStr needle)

/-- The longest leading run of decimal digits of a character list. -/
def leadingDigits : List Char → List Char
  | [] => []
  | c :: cs => if c.isDigit then c :: leadingDigits cs else []

/-- Numeric value of a digit list read left to right. -/
def digitsToNat (ds : List Char) : Nat :=
  ds.foldl (fun acc c => acc * 10 + (c.toNat - '0'.toNat)) 0

/-- Removal of leading and trailing whitespace of a character list
(model of JavaScript `trim`). -/
def trimChars (cs : List Char) : List Char :=
  ((cs.dropWhile Char.isWhitespace).reverse.dropWhile Char.isWhitespace).reverse

/-- Model of JavaScript `parseInt(s, 10)`: skip leading whitespace,
read an optional sign and then the longest leading run of decimal
digits; `none` models the `NaN` result when no digit is found. -/
def parseIntJS (s : String) : Option Int :=
  let signed : Bool × List Char :=
    match s.data.dropWhile Char.isWhitespace with
    | '-' :: cs => (true, cs)
    | '+' :: cs => (false, cs)
    | cs => (false, cs)
  let ds := leadingDigits signed.2
  if ds.isEmpty then none
  else
    let n : Int := (digitsToNat ds : Nat)
    some (if signed.1 then -n else n)

/-- Model of JavaScript `Math.max(x, k)` where `x` may be `NaN`
(`none`): `Math.max` of `NaN` and anything is `NaN`. -/
def jsMax (x : Option Int) (k : Int) : Option Int :=
  x.map (fun v => max v k)

/-- Model of JavaScript `Math.min(x, k)` where `x` may be `NaN`. -/
def jsMin (x : Option Int) (k : Int) : Option Int :=
  x.map (fun v => min v k)

/-- Truthiness of an optional string under JavaScript coercion:
`undefined` and the empty string are falsy. -/
def truthy : Option String → Bool
  | none => false
  | some s => !(s == "")

/-! ## Data model

Rows follow the Prisma migration `20250920160716_add_jobrole`.
Enumerated columns are modelled as `String` (the route handlers pass
raw query strings through to the store), numeric columns as `Int`,
nullable columns as `Option`.  Columns the claims never touch
(description, currency, benefits, timestamps other than `createdAt`,
and so on) are omitted. -/

/-- The `CTCType` enum of the schema. -/
inductive CtcType
  | RANGE
  | COMPETITIVE
  | UNDISCLOSED
  deriving Repr, DecidableEq

/-- The `ApplicationStatus` enum of the schema. -/
inductive ApplicationStatus
  | PENDING
  | REVIEWED
  | ACCEPTED
  | REJECTED
  | WITHDRAWN
  deriving Repr, DecidableEq

/-- A row of the `Job` table (migration lines 195-222 plus the
`role`/`recruiterId` alterations), joined with the name of its
`Company` row, which the jobs listing reads through the `company`
relation.  The table has `jobType`, `minExperience`, `maxExperience`,
`minCTC`, `maxCTC` columns; it has no `workMode`, `department`,
`companyType`, `salaryMin` or `salaryMax` column, and no `hiddenBy`
relation. -/
structure Job where
  id : String
  recruiterId : String
  companyId : String
  companyName : String
  title : String
  role : String
  skills : List String
  location : String
  ctcType : CtcType
  minCTC : Option Int
  maxCTC : Option Int
  minExperience : Int
  maxExperience : Int
  jobType : String
  openings : Int
  createdAt : Int
  deriving Repr, DecidableEq

/-- A row of the `Application` table (migration lines 225-241): its
columns are `id`, `applicantId`, `jobId`, `status`, `resume`,
`coverLetter`, `portfolioUrl` and timestamps.  There is no `userId`
column. -/
structure Application where
  id : String
  applicantId : String
  jobId : String
  status : ApplicationStatus
  resume : Option String
  coverLetter : Option String
  portfolioUrl : Option String
  deriving Repr, DecidableEq

/-- A row of the `SavedJob` table (migration lines 22-31), which
carries a unique index on `(applicantId, jobId)`. -/
structure SavedJob where
  id : String
  applicantId : String
  jobId : String
  deriving Repr, DecidableEq

/-- The relational store: the tables the claims touch.  `applicants`
holds the ids of the `Applicant` profile rows. -/
structure Store where
  applicants : List String
  jobs : List Job
  applications : List Application
  savedJobs : List SavedJob
  deriving Repr, DecidableEq

/-! ## GET /jobs — the job search query builder

Embedding of the `router.get("/")` handler of `routes/jobs/jobs.ts`
(src/unnamed/part_006, lines 1900-2115). -/

/-- The query-string parameters the handler destructures (line
1901-1915 plus the two `req.query` reads at 1964-1965).  Each
parameter is an optional raw string. -/
structure JobsQuery where
  page : Option String := none
  limit : Option String := none
  roles : Option String := none
  skills : Option String := none
  jobType : Option String := none
  location : Option String := none
  workMode : Option String := none
  department : Option String := none
  salaryMin : Option String := none
  salaryMax : Option String := none
  companyType : Option String := none
  postedDate : Option String := none
  company : Option String := none
  minExperience : Option String := none
  maxExperience : Option String := none
  deriving Repr, DecidableEq

/-- Split of a character list at every comma (model of JavaScript
`split(",")`); `acc` holds the characters of the current token in
reverse. -/
def splitCommaAux : List Char → List Char → List (List Char)
  | [], acc => [acc.reverse]
  | c :: cs, acc =>
    if c == ',' then acc.reverse :: splitCommaAux cs []
    else splitCommaAux cs (c :: acc)

/-- `parseToArray` (part_006 lines 1923-1928): a falsy parameter
(absent or empty string) gives `undefined`; otherwise the string is
split on commas, each token trimmed, and empty tokens dropped. -/
def parseToArray (param : Option String) : Option (List String) :=
  match param with
  | none => none
  | some s =>
    if s == "" then none
    else
      some ((((splitCommaAux s.data []).map
        (fun t => String.mk (trimChars t))).filter (fun t => !(t == ""))))

/-- The token list a parameter contributes: `parseToArray` when it
yields a non-empty list, nothing otherwise (the handler guards every
filter with `if (arr && arr.length)`). -/
def activeTokens (param : Option String) : Option (List String) :=
  match parseToArray param with
  | none => none
  | some [] => none
  | some (t :: ts) => some (t :: ts)

/-- A condition pushed onto `whereClause.AND` (part_006 lines
1967-1983 for experience, 2031-2055 for salary).  The salary
conditions name `salaryMax`/`salaryMin` columns that the `Job` table
does not have. -/
inductive AndCond
  | maxExperienceGte (n : Int)
  | minExperienceLte (n : Int)
  | salaryMaxGte (n : Int)
  | salaryMinLte (n : Int)
  deriving Repr, DecidableEq

/-- The `whereClause` object the handler assembles (part_006 lines
1932-2063).  `notUser` records the `NOT` block added when
`req.user?.userId` is set; `orLocations` records the `OR` list, which
the handler installs unconditionally (line 2004) and fills only when a
location filter is given. -/
structure WhereClause where
  notUser : Option String := none
  role : Option (List String) := none
  skills : Option (List String) := none
  andConds : List AndCond := []
  company : Option String := none
  jobType : Option (List String) := none
  orLocations : List String := []
  workMode : Option (List String) := none
  department : Option (List String) := none
  companyType : Option (List String) := none
  deriving Repr, DecidableEq

/-- The experience conditions pushed at part_006 lines 1967-1983: the
`minExperience` side first, then the `maxExperience` side, each only
when its `parseInt` is not `NaN`. -/
def experienceConds (q : JobsQuery) : List AndCond :=
  match parseIntJS (q.minExperience.getD ""), parseIntJS (q.maxExperience.getD "") with
  | some lo, some hi => [AndCond.maxExperienceGte lo, AndCond.minExperienceLte hi]
  | some lo, none => [AndCond.maxExperienceGte lo]
  | none, some hi => [AndCond.minExperienceLte hi]
  | none, none => []

/-- The salary conditions pushed at part_006 lines 2031-2055: each
side is guarded by truthiness of the raw parameter and then by a
successful `parseInt`. -/
def salaryConds (q : JobsQuery) : List AndCond :=
  (if truthy q.salaryMin then
    match parseIntJS (q.salaryMin.getD "") with
    | some n => [AndCond.salaryMaxGte n]
    | none => []
  else []) ++
  (if truthy q.salaryMax then
    match parseIntJS (q.salaryMax.getD "") with
    | some n => [AndCond.salaryMinLte n]
    | none => []
  else [])

/-- Assembly of `whereClause` (part_006 lines 1932-2063), in source
order: the `NOT` visibility block when a user id is present, then the
list filters, the experience and salary `AND` conditions, the company
substring filter, and the unconditional `OR` list that receives the
location disjuncts. -/
def buildWhereClause (q : JobsQuery) (userId : Option String) : WhereClause :=
  { notUser := userId
    role := activeTokens q.roles
    skills := activeTokens q.skills
    andConds := experienceConds q ++ salaryConds q
    company := if truthy q.company then q.company else none
    jobType := activeTokens q.jobType
    orLocations := (activeTokens q.location).getD []
    workMode := activeTokens q.workMode
    department := activeTokens q.department
    companyType := activeTokens q.companyType }

/-- Whether the store accepts the assembled filter.  The Prisma client
validates a query against the schema before reading rows; the `NOT`
block (filtering the `applications` relation on a `userId` field the
`Application` table does not have, and a `hiddenBy` relation the `Job`
model does not have), the salary conditions (`salaryMax`/`salaryMin`
are not `Job` columns), and the `workMode`/`department`/`companyType`
membership filters (not `Job` columns either) are all rejected. -/
def whereClauseAccepted (w : WhereClause) : Bool :=
  w.notUser.isNone &&
  w.andConds.all (fun c =>
    match c with
    | AndCond.maxExperienceGte _ => true
    | AndCond.minExperienceLte _ => true
    | AndCond.salaryMaxGte _ => false
    | AndCond.salaryMinLte _ => false) &&
  w.workMode.isNone && w.department.isNone && w.companyType.isNone

/-- Evaluation of one `AND` condition on a job row (the two valid
experience conditions; the salary constructors are unreachable under
`whereClauseAccepted` and evaluate to `false`). -/
def evalAndCond (j : Job) : AndCond → Bool
  | AndCond.maxExperienceGte n => decide (n ≤ j.maxExperience)
  | AndCond.minExperienceLte n => decide (j.minExperience ≤ n)
  | AndCond.salaryMaxGte _ => false
  | AndCond.salaryMinLte _ => false

/-- Row-level meaning of an accepted `whereClause`: every category
composes with AND; `in` filters are membership, `hasSome` is
non-empty intersection, `contains / insensitive` is the
case-insensitive substring test, and the `OR` list is a disjunction
that no row satisfies when the list is empty. -/
def evalWhereClause (w : WhereClause) (j : Job) : Bool :=
  (match w.role with
   | none => true
   | some l => l.contains j.role) &&
  (match w.skills with
   | none => true
   | some l => j.skills.any (fun s => l.contains s)) &&
  w.andConds.all (evalAndCond j) &&
  (match w.company with
   | none => true
   | some sub => containsInsensitive j.companyName sub) &&
  (match w.jobType with
   | none => true
   | some l => l.contains j.jobType) &&
  w.orLocations.any (fun loc => containsInsensitive j.location loc) &&
  (match w.workMode with
   | none => true
   | some _ => false) &&
  (match w.department with
   | none => true
   | some _ => false) &&
  (match w.companyType with
   | none => true
   | some _ => false)

/-- `pageNumber` (part_006 line 1917): `Math.max(parseInt(page, 10), 1)`
with the destructuring default `page = "1"`; `none` models `NaN`. -/
def pageNumberOf (q : JobsQuery) : Option Int :=
  jsMax (parseIntJS (q.page.getD "1")) 1

/-- `limitNumber` (part_006 line 1918):
`Math.min(Math.max(parseInt(limit, 10), 1), 100)` with the
destructuring default `limit = "25"`; `none` models `NaN`. -/
def limitNumberOf (q : JobsQuery) : Option Int :=
  jsMin (jsMax (parseIntJS (q.limit.getD "25")) 1) 100

/-- Sort key comparison for `orderBy createdAt` (part_006 lines
2065-2071): ascending when `postedDate` lower-cases to `oldest`,
descending otherwise. -/
def orderOldestFirst (q : JobsQuery) : Bool :=
  match q.postedDate with
  | none => false
  | some s => !(s == "") && (String.mk (lowerStr s) == "oldest")

/-- Stable insertion of an element into a sorted list. -/
def insertSorted (le : Job → Job → Bool) (x : Job) : List Job → List Job
  | [] => [x]
  | y :: ys => if le x y then x :: y :: ys else y :: insertSorted le x ys

/-- Stable insertion sort used to model the `orderBy` of the store. -/
def sortJobs (le : Job → Job → Bool) : List Job → List Job
  | [] => []
  | x :: xs => insertSorted le x (sortJobs le xs)

/-- The `createdAt` comparison for the chosen direction. -/
def jobLe (oldestFirst : Bool) (a b : Job) : Bool :=
  if oldestFirst then decide (a.createdAt ≤ b.createdAt)
  else decide (b.createdAt ≤ a.createdAt)

/-- Response of the jobs listing (part_006 lines 2100-2113): the 200
payload `{page, count, totalJobs, totalPages, jobs}`, or the 500
`"Error fetching jobs"` answer produced by the catch block when the
store rejects the query (invalid filter fields, or a `NaN`
`skip`/`take`). -/
inductive JobsResponse
  | ok (page : Int) (count : Int) (totalJobs : Nat) (totalPages : Int)
      (jobs : List Job)
  | serverError
  deriving Repr, DecidableEq

/-- Ceiling division used for `totalPages = Math.ceil(totalJobs / limitNumber)`. -/
def ceilDivNat (total : Nat) (limit : Int) : Int :=
  ((total : Int) + limit - 1) / limit

/-- The GET /jobs handler (part_006 lines 1900-2115) given the
`req.user?.userId` value `userId` in scope at line 1921: clamp the
pagination numbers, assemble `whereClause`, and either answer 500
(query rejected by the store, or `NaN` pagination) or answer 200 with
the matching page and the total count. -/
def getJobsHandler (q : JobsQuery) (userId : Option String) (st : Store) :
    JobsResponse :=
  let w := buildWhereClause q userId
  match pageNumberOf q, limitNumberOf q with
  | some p, some l =>
    if whereClauseAccepted w then
      let matching := st.jobs.filter (evalWhereClause w)
      let sorted := sortJobs (jobLe (orderOldestFirst q)) matching
      let pageJobs := (sorted.drop ((p - 1) * l).toNat).take l.toNat
      JobsResponse.ok p l matching.length (ceilDivNat matching.length l) pageJobs
    else JobsResponse.serverError
  | _, _ => JobsResponse.serverError

/-- The GET /jobs route as wired: `router.get("/", handler)` carries
no middleware (part_006 line 1900) and nothing in `index.ts` or
`routes/index.ts` attaches `req.user`, so the handler always runs with
`req.user` undefined, whatever token the request carries in its
cookie. -/
def routeGetJobs (_cookieToken : Option String) (q : JobsQuery) (st : Store) :
    JobsResponse :=
  getJobsHandler q none st

/-! ## Auth and role middleware

Embedding of `authMiddleware` (src/unnamed/part_003) and
`roleMiddleware` (src/unnamed/part_002).  `jsonwebtoken.verify` is an
external collaborator: its outcome is a parameter, either a decoded
payload or a thrown error carrying the library message (for example
`jwt expired`, `jwt malformed`, `invalid signature`). -/

/-- The decoded JWT payload fields the middlewares read. -/
structure JwtPayload where
  userId : Option String := none
  role : Option String := none
  deriving Repr, DecidableEq

/-- Outcome of `jwt.verify(token, secret)`: a payload, or a thrown
error with its `message`. -/
inductive VerifyResult
  | ok (p : JwtPayload)
  | exn (msg : String)
  deriving Repr, DecidableEq

/-- What a middleware does with the request: short-circuit with an
HTTP response `{message, error?}`, or attach `req.user` and continue. -/
inductive MwResult
  | respond (status : Nat) (message : String) (error : Option String)
  | next (userId : String) (role : Option String)
  deriving Repr, DecidableEq

/-- `authMiddleware` (part_003 lines 5-43): reject a falsy cookie
token with 401; treat an unset `JWT_SECRET` as a thrown error; map a
`jwt.verify` exception to 401 `Unauthorized: Invalid token` with the
error message attached; reject a payload without a truthy `userId`
with 401 `Invalid token payload`; otherwise attach the user. -/
def authMiddleware (token : Option String) (secret : Option String)
    (verify : String → String → VerifyResult) : MwResult :=
  if !truthy token then
    MwResult.respond 401 "Unauthorized: No token provided" none
  else if !truthy secret then
    MwResult.respond 401 "Unauthorized: Invalid token"
      (some "JWT_SECRET not defined")
  else
    match verify (token.getD "") (secret.getD "") with
    | VerifyResult.exn m =>
      MwResult.respond 401 "Unauthorized: Invalid token" (some m)
    | VerifyResult.ok p =>
      if truthy p.userId then MwResult.next (p.userId.getD "") p.role
      else MwResult.respond 401 "Invalid token payload" none

/-- `roleMiddleware(role)` (part_002 lines 6-46): same token checks,
but a decoded role different from the required role answers 403
`Forbidden: Insufficient role`, and no `userId` check is made before
attaching the user. -/
def roleMiddleware (requiredRole : String) (token : Option String)
    (secret : Option String) (verify : String → String → VerifyResult) :
    MwResult :=
  if !truthy token then
    MwResult.respond 401 "Unauthorized: No token provided" none
  else if !truthy secret then
    MwResult.respond 401 "Unauthorized: Invalid token"
      (some "JWT_SECRET not defined")
  else
    match verify (token.getD "") (secret.getD "") with
    | VerifyResult.exn m =>
      MwResult.respond 401 "Unauthorized: Invalid token" (some m)
    | VerifyResult.ok p =>
      if !(p.role == some requiredRole) then
        MwResult.respond 403 "Forbidden: Insufficient role" none
      else MwResult.next (p.userId.getD "") p.role

/-! ## Job writes: POST /jobs and PATCH /jobs/:jobId

Embedding of `jobPostBody` (part_006 lines 14-47), `jobPatchBody`
(part_006 lines 991-1023) and the PATCH handler (part_006 lines
1154-1214).  The bodies are projected to the columns the claims
touch; the untouched columns (description, currency, benefits,
openings, deadline and so on) behave uniformly and are omitted. -/

/-- The refine-relevant projection of a parsed `jobPostBody`. -/
structure JobPostData where
  companyId : String
  title : String
  location : String
  role : String
  jobType : String
  ctcType : CtcType
  minCTC : Int
  maxCTC : Int
  minExperience : Int
  maxExperience : Int
  deriving Repr, DecidableEq

/-- The schema checks of `jobPostBody` on the projected fields:
`minCTC`/`maxCTC` are non-negative, and the refine at lines 39-47
requires `minCTC <= maxCTC` exactly when `ctcType` is `RANGE`. -/
def jobPostValid (d : JobPostData) : Bool :=
  decide (0 ≤ d.minCTC) && decide (0 ≤ d.maxCTC) &&
  (match d.ctcType with
   | CtcType.RANGE => decide (d.minCTC ≤ d.maxCTC)
   | _ => true)

/-- The projection of a parsed `jobPatchBody`: every field optional. -/
structure JobPatchData where
  title : Option String := none
  location : Option String := none
  ctcType : Option CtcType := none
  minCTC : Option Int := none
  maxCTC : Option Int := none
  minExperience : Option Int := none
  maxExperience : Option Int := none
  deriving Repr, DecidableEq

/-- The schema checks of `jobPatchBody`: provided `minCTC`/`maxCTC`
are non-negative, and the refine at lines 1014-1023 fires only when
the body itself carries `ctcType: RANGE`, in which case both bounds
must be present and ordered. -/
def jobPatchValid (d : JobPatchData) : Bool :=
  d.minCTC.all (fun v => decide (0 ≤ v)) &&
  d.maxCTC.all (fun v => decide (0 ≤ v)) &&
  (match d.ctcType with
   | some CtcType.RANGE =>
     match d.minCTC, d.maxCTC with
     | some lo, some hi => decide (lo ≤ hi)
     | _, _ => false
   | _ => true)

/-- Outcome of a state-changing handler: the HTTP status it answers
and the store it leaves behind. -/
structure HandlerOut where
  status : Nat
  st : Store
  deriving Repr, DecidableEq

/-- The job row `prisma.job.create` stores for a validated post body
(part_006 lines 66-71): the body fields plus the authenticated
recruiter id; `status`-free columns keep their defaults. -/
def jobOfPost (newId recruiterId companyId companyName : String)
    (createdAt : Int) (d : JobPostData) : Job :=
  { id := newId
    recruiterId := recruiterId
    companyId := companyId
    companyName := companyName
    title := d.title
    role := d.role
    skills := []
    location := d.location
    ctcType := d.ctcType
    minCTC := some d.minCTC
    maxCTC := some d.maxCTC
    minExperience := d.minExperience
    maxExperience := d.maxExperience
    jobType := d.jobType
    openings := 1
    createdAt := createdAt }

/-- POST /jobs (part_006 lines 800-860 in the revision with logging):
validate against `jobPostBody` (400 on failure) and create the job. -/
def createJobHandler (recruiterId : String) (d : JobPostData)
    (newId companyName : String) (createdAt : Int) (st : Store) : HandlerOut :=
  if !jobPostValid d then ⟨400, st⟩
  else
    let row := jobOfPost newId recruiterId d.companyId companyName createdAt d
    ⟨201, { st with jobs := st.jobs ++ [row] }⟩

/-- Merge of a validated patch body into a stored job row: exactly the
fields present in the body are overwritten (`prisma.job.update` with
the parsed data object). -/
def applyPatch (d : JobPatchData) (j : Job) : Job :=
  { j with
    title := d.title.getD j.title
    location := d.location.getD j.location
    ctcType := d.ctcType.getD j.ctcType
    minCTC := match d.minCTC with | some v => some v | none => j.minCTC
    maxCTC := match d.maxCTC with | some v => some v | none => j.maxCTC
    minExperience := d.minExperience.getD j.minExperience
    maxExperience := d.maxExperience.getD j.maxExperience }

/-- PATCH /jobs/:jobId (part_006 lines 1154-1214): 400 when the body
fails `jobPatchBody`, 404 when the job id is unknown, 403 when the
caller is not the recruiter referenced by the job, otherwise update
the row and answer 200. -/
def patchJobHandler (recruiterId jobId : String) (d : JobPatchData)
    (st : Store) : HandlerOut :=
  if !jobPatchValid d then ⟨400, st⟩
  else
    match st.jobs.find? (fun j => j.id == jobId) with
    | none => ⟨404, st⟩
    | some job =>
      if !(job.recruiterId == recruiterId) then ⟨403, st⟩
      else
        let rows := st.jobs.map (fun j =>
          if j.id == jobId then applyPatch d j else j)
        ⟨200, { st with jobs := rows }⟩

/-! ## POST /jobs/:jobId/apply

Embedding of the apply handler (part_006 lines 2384-2466) behind
`roleMiddleware("APPLICANT")`. -/

/-- The parsed `jobApplicationBody` (part_006 lines 2300-2304): three
optional strings. -/
structure JobApplicationData where
  resume : Option String := none
  coverLetter : Option String := none
  portfolioUrl : Option String := none
  deriving Repr, DecidableEq

/-- The application row `prisma.application.create` stores (part_006
lines 2443-2449): the pair and the body fields; the `status` column is
not supplied, so the store default `PENDING` applies (migration line
229). -/
def newApplication (newId applicantId jobId : String)
    (d : JobApplicationData) : Application :=
  { id := newId
    applicantId := applicantId
    jobId := jobId
    status := ApplicationStatus.PENDING
    resume := d.resume
    coverLetter := d.coverLetter
    portfolioUrl := d.portfolioUrl }

/-- POST /jobs/:jobId/apply (part_006 lines 2384-2466): 404 when the
applicant profile is absent, 404 when the job is absent, 409 when an
application for `(applicantId, jobId)` already exists (the
`applicantId_jobId` unique key looked up with `findUnique`), otherwise
create the application. -/
def applyHandler (applicantId jobId : String) (d : JobApplicationData)
    (newId : String) (st : Store) : HandlerOut :=
  if !st.applicants.contains applicantId then ⟨404, st⟩
  else if (st.jobs.find? (fun j => j.id == jobId)).isNone then ⟨404, st⟩
  else if st.applications.any
      (fun a => a.applicantId == applicantId && a.jobId == jobId) then
    ⟨409, st⟩
  else
    let row := newApplication newId applicantId jobId d
    ⟨201, { st with applications := st.applications ++ [row] }⟩

/-! ## POST /jobs/:jobId/save

Embedding of the save handler (part_006 lines 2548-2612). -/

/-- The saved-job row `prisma.savedJob.create` stores. -/
def newSavedJob (newId applicantId jobId : String) : SavedJob :=
  { id := newId, applicantId := applicantId, jobId := jobId }

/-- POST /jobs/:jobId/save (part_006 lines 2548-2612): 404 when the
job is absent, 409 when a `SavedJob` for the pair already exists
(`findFirst` on `{jobId, applicantId}`), otherwise create the record. -/
def saveJobHandler (applicantId jobId : String) (newId : String)
    (st : Store) : HandlerOut :=
  if (st.jobs.find? (fun j => j.id == jobId)).isNone then ⟨404, st⟩
  else if st.savedJobs.any
      (fun s => s.jobId == jobId && s.applicantId == applicantId) then
    ⟨409, st⟩
  else
    let row := newSavedJob newId applicantId jobId
    ⟨201, { st with savedJobs := st.savedJobs ++ [row] }⟩

/-! ## PATCH /applications/:id/status

Embedding of the status handler (src/unnamed/part_007 lines 323-397)
and `applicationPatchBody` (lines 193-195), behind
`roleMiddleware("RECRUITER")`. -/

/-- The `status` overwrite `prisma.application.update` performs on
the row with the given id (part_007 lines 367-379). -/
def overwriteStatus (applicationId : String) (newStatus : ApplicationStatus)
    (rows : List Application) : List Application :=
  rows.map (fun a =>
    if a.id == applicationId then { a with status := newStatus } else a)

/-- PATCH /applications/:id/status: 404 when the application id is
unknown; the included `job` relation supplies the owning recruiter
(500 if the store cannot produce it, which the `jobId` foreign key
rules out); 403 when the caller is not that recruiter; otherwise
overwrite `status` with the parsed value and answer 200.  The body
already passed `applicationPatchBody`, so `newStatus` is one of the
five `ApplicationStatus` values; no check reads the current status. -/
def setStatusHandler (applicationId recruiterId : String)
    (newStatus : ApplicationStatus) (st : Store) : HandlerOut :=
  match st.applications.find? (fun a => a.id == applicationId) with
  | none => ⟨404, st⟩
  | some app =>
    match st.jobs.find? (fun j => j.id == app.jobId) with
    | none => ⟨500, st⟩
    | some job =>
      if !(job.recruiterId == recruiterId) then ⟨403, st⟩
      else
        ⟨200, { st with applications :=
                  overwriteStatus applicationId newStatus st.applications }⟩

/-! ## Two concurrent apply calls

Small-step model of the duplicate check of the apply handler
(part_006 lines 2427-2449): the `findUnique` read and the `create`
write are separate awaited store operations, so two requests for the
same `(applicantId, jobId)` pair can interleave between them.  The
`create` respects the `Application_applicantId_jobId_key` unique index
(migration line 256): inserting an existing pair fails, and that
failure lands in the generic catch block, a 500 answer. -/

/-- What one apply request answers for the pair. -/
inductive ApplyOutcome
  | created
  | conflict409
  | internal500
  deriving Repr, DecidableEq

/-- Progress of one apply request through its two store operations. -/
inductive OpLocal
  | start
  | readyInsert
  | done (o : ApplyOutcome)
  deriving Repr, DecidableEq

/-- One store operation of an apply request for pair `p`: the check
answers 409 when the pair exists and otherwise moves on to the
insert; the insert re-hits the unique index, answering 500 when the
pair appeared in between and creating the row otherwise. -/
def opStep (p : String × String) :
    OpLocal → List (String × String) → OpLocal × List (String × String)
  | OpLocal.start, db =>
    if p ∈ db then (OpLocal.done ApplyOutcome.conflict409, db)
    else (OpLocal.readyInsert, db)
  | OpLocal.readyInsert, db =>
    if p ∈ db then (OpLocal.done ApplyOutcome.internal500, db)
    else (OpLocal.done ApplyOutcome.created, p :: db)
  | OpLocal.done o, db => (OpLocal.done o, db)

/-- A configuration of the two racing requests: the progress of each
and the set of `(applicantId, jobId)` application rows. -/
structure RaceConfig where
  a : OpLocal
  b : OpLocal
  db : List (String × String)
  deriving Repr, DecidableEq

/-- One scheduler choice: `true` lets request A take its next store
operation, `false` request B. -/
def raceStep (p : String × String) (c : RaceConfig) (choice : Bool) :
    RaceConfig :=
  if choice then
    let r := opStep p c.a c.db
    { c with a := r.1, db := r.2 }
  else
    let r := opStep p c.b c.db
    { c with b := r.1, db := r.2 }

/-- Run a schedule of choices from a configuration. -/
def raceRun (p : String × String) (sched : List Bool) (c : RaceConfig) :
    RaceConfig :=
  sched.foldl (raceStep p) c

/-- The number of application rows for the pair `p`. -/
def rowCount (p : String × String) : List (String × String) → Nat
  | [] => 0
  | q :: l => (if q = p then 1 else 0) + rowCount p l

/-- The mirror image of a race configuration, with the two requests
exchanged. -/
def swapConfig (c : RaceConfig) : RaceConfig :=
  ⟨c.b, c.a, c.db⟩

/-! ## Concrete fixtures used by the closed theorems below -/

/-- A stored job with experience band [2, 6], compensation
`RANGE 10..50`, located `Remote`, owned by recruiter `r1`. -/
def exampleJob : Job :=
  { id := "j1"
    recruiterId := "r1"
    companyId := "c1"
    companyName := "Acme"
    title := "Dev"
    role := "BACKEND_DEVELOPER"
    skills := ["React"]
    location := "Remote"
    ctcType := CtcType.RANGE
    minCTC := some 10
    maxCTC := some 50
    minExperience := 2
    maxExperience := 6
    jobType := "REMOTE"
    openings := 1
    createdAt := 0 }

/-- An application by applicant `alice` to `exampleJob`. -/
def exampleApplication : Application :=
  { id := "a1"
    applicantId := "alice"
    jobId := "j1"
    status := ApplicationStatus.PENDING
    resume := none
    coverLetter := none
    portfolioUrl := none }

/-- A store holding applicant `alice` and `exampleJob`. -/
def exampleStore : Store :=
  { applicants := ["alice"]
    jobs := [exampleJob]
    applications := []
    savedJobs := [] }

/-- `exampleStore` after `alice` has applied to `exampleJob`. -/
def appliedStore : Store :=
  { exampleStore with applications := [exampleApplication] }

/-- The query `?minExperience=5&maxExperience=10` and nothing else. -/
def expQuery : JobsQuery :=
  { minExperience := some "5", maxExperience := some "10" }

/-- The patch body `{minCTC: 100}` with no `ctcType`. -/
def patchOnlyMin : JobPatchData :=
  { minCTC := some 100 }

/-- The patch body `{ctcType: RANGE, minCTC: 100, maxCTC: 50}` of the
testable property of the spec. -/
def patchRangeBad : JobPatchData :=
  { ctcType := some CtcType.RANGE, minCTC := some 100, maxCTC := some 50 }

/-- `exampleStore` after `alice` has saved `exampleJob`. -/
def savedStore : Store :=
  { exampleStore with savedJobs := [newSavedJob "s1" "alice" "j1"] }

/-- The invariant tying the progress of two racing apply requests for
pair `p` to the application rows: the row for `p` exists exactly when
one of the requests has created it, at most one row for `p` ever
exists, the two requests never both create, and a request that ended
in 409 or 500 lost to the other request creating the row. -/
def RaceInv (p : String × String) (c : RaceConfig) : Prop :=
  (p ∈ c.db ↔ (c.a = OpLocal.done ApplyOutcome.created ∨
               c.b = OpLocal.done ApplyOutcome.created)) ∧
  ¬(c.a = OpLocal.done ApplyOutcome.created ∧
    c.b = OpLocal.done ApplyOutcome.created) ∧
  ((c.a = OpLocal.done ApplyOutcome.conflict409 ∨
    c.a = OpLocal.done ApplyOutcome.internal500) →
    c.b = OpLocal.done ApplyOutcome.created) ∧
  ((c.b = OpLocal.done ApplyOutcome.conflict409 ∨
    c.b = OpLocal.done ApplyOutcome.internal500) →
    c.a = OpLocal.done ApplyOutcome.created) ∧
  rowCount p c.db ≤ 1

/-! ## Theorems -/

/-- C1: the experience filter alone does not determine inclusion.  For
the query `?minExperience=5&maxExperience=10` the handler assembles
exactly the two experience conditions of the claim, and the stored job
with band [2, 6] satisfies both, yet the 200 response contains no job:
the handler also installs the unconditional `OR` list (part_006 line
2004), which is empty without a location filter and which the store
then satisfies for no row.  This contradicts the claimed biconditional
and the spec example that the job IS returned for the query band
[5, 10]. -/
theorem c1_overlap_example_not_returned :
    evalAndCond exampleJob (AndCond.maxExperienceGte 5) = true ∧
    evalAndCond exampleJob (AndCond.minExperienceLte 10) = true ∧
    buildWhereClause expQuery none =
      { andConds := [AndCond.maxExperienceGte 5, AndCond.minExperienceLte 10] } ∧
    getJobsHandler expQuery none exampleStore = JobsResponse.ok 1 25 0 0 [] := by
  decide

/-- C2: the applied-jobs exclusion never happens.  `alice` holds a
session token and has applied to `exampleJob`, yet GET /jobs returns
that job to her: the route is registered without any middleware, so
`req.user` is never populated and the `NOT` visibility block is dead
code.  Had the handler received the user id, the block would reference
an `Application.userId` column and a `Job.hiddenBy` relation that the
schema does not have, and the request would answer 500 instead of a
filtered list. -/
theorem c2_applied_job_not_excluded :
    exampleApplication.applicantId = "alice" ∧
    exampleApplication.jobId = exampleJob.id ∧
    exampleApplication ∈ appliedStore.applications ∧
    routeGetJobs (some "alice-session-token") { location := some "Remote" }
      appliedStore = JobsResponse.ok 1 25 1 1 [exampleJob] ∧
    getJobsHandler { location := some "Remote" } (some "alice") appliedStore =
      JobsResponse.serverError := by
  decide

/-- C10 counterexample: an expired token and a malformed token produce
different client-visible 401 bodies, because the catch block attaches
the underlying `jsonwebtoken` message as the `error` field. -/
theorem c10_distinct_bodies_counterexample :
    authMiddleware (some "tok") (some "secret")
      (fun _ _ => VerifyResult.exn "jwt expired") =
      MwResult.respond 401 "Unauthorized: Invalid token" (some "jwt expired") ∧
    authMiddleware (some "tok") (some "secret")
      (fun _ _ => VerifyResult.exn "jwt malformed") =
      MwResult.respond 401 "Unauthorized: Invalid token" (some "jwt malformed") ∧
    authMiddleware (some "tok") (some "secret")
      (fun _ _ => VerifyResult.exn "jwt expired") ≠
    authMiddleware (some "tok") (some "secret")
      (fun _ _ => VerifyResult.exn "jwt malformed") := by
  decide

/-- C10 amended: whenever the cookie token is present and
`jwt.verify` throws, both middlewares short-circuit with status 401
and the fixed message `Unauthorized: Invalid token`, but the response
also carries the verifier error message in its `error` field, so the
client can distinguish a malformed token from an expired one. -/
theorem c10_verify_failure_response (tok sec m requiredRole : String)
    (htok : (tok == "") = false) (hsec : (sec == "") = false) :
    authMiddleware (some tok) (some sec) (fun _ _ => VerifyResult.exn m) =
      MwResult.respond 401 "Unauthorized: Invalid token" (some m) ∧
    roleMiddleware requiredRole (some tok) (some sec)
      (fun _ _ => VerifyResult.exn m) =
      MwResult.respond 401 "Unauthorized: Invalid token" (some m) := by
  constructor <;> simp [authMiddleware, roleMiddleware, truthy, htok, hsec]

/-- C10 witness: the amended statement at a concrete expired token. -/
theorem c10_verify_failure_response_witness :
    authMiddleware (some "tok") (some "secret")
      (fun _ _ => VerifyResult.exn "jwt expired") =
      MwResult.respond 401 "Unauthorized: Invalid token" (some "jwt expired") ∧
    roleMiddleware "RECRUITER" (some "tok") (some "secret")
      (fun _ _ => VerifyResult.exn "jwt expired") =
      MwResult.respond 401 "Unauthorized: Invalid token" (some "jwt expired") :=
  c10_verify_failure_response "tok" "secret" "jwt expired" "RECRUITER"
    (by decide) (by decide)

/-- C5 counterexample: an accepted update can leave a RANGE job with
`minCTC > maxCTC`.  The patch body `{minCTC: 100}` carries no
`ctcType`, so the `jobPatchBody` refine does not fire; the owning
recruiter sends it against the stored RANGE job with `maxCTC = 50`,
the handler answers 200, and the stored job now has
`ctcType = RANGE`, `minCTC = 100`, `maxCTC = 50`. -/
theorem c5_range_violation_counterexample :
    jobPatchValid patchOnlyMin = true ∧
    patchJobHandler "r1" "j1" patchOnlyMin exampleStore =
      ⟨200, { exampleStore with jobs := [{ exampleJob with minCTC := some 100 }] }⟩ ∧
    ({ exampleJob with minCTC := some 100 }).ctcType = CtcType.RANGE ∧
    ({ exampleJob with minCTC := some 100 }).minCTC = some 100 ∧
    ({ exampleJob with minCTC := some 100 }).maxCTC = some 50 ∧
    ¬((100 : Int) ≤ 50) := by
  decide

/-- C5 amended: the write-time `minCTC <= maxCTC` check holds for
every accepted create, and for every accepted update whose body itself
carries `ctcType = RANGE`; the concrete update of the claim
(`ctcType=RANGE, minCTC=100, maxCTC=50`) fails validation with 400 and
leaves the store unchanged.  An update that omits `ctcType` is not
checked against the stored compensation type, so it can leave a RANGE
job with `minCTC > maxCTC` (see the counterexample). -/
theorem c5_ctc_range_validation (d : JobPostData) (hd : jobPostValid d = true)
    (hdR : d.ctcType = CtcType.RANGE)
    (e : JobPatchData) (he : jobPatchValid e = true)
    (heR : e.ctcType = some CtcType.RANGE)
    (j : Job) (rid jid : String) (st : Store) :
    d.minCTC ≤ d.maxCTC ∧
    ((applyPatch e j).ctcType = CtcType.RANGE ∧
     ∃ lo hi, (applyPatch e j).minCTC = some lo ∧
       (applyPatch e j).maxCTC = some hi ∧ lo ≤ hi) ∧
    patchJobHandler rid jid patchRangeBad st = ⟨400, st⟩ := by
  refine ⟨?_, ?_, ?_⟩
  · simp [jobPostValid, hdR] at hd
    exact hd.2
  · cases hmin : e.minCTC <;> cases hmax : e.maxCTC <;>
      simp [jobPatchValid, heR, hmin, hmax] at he
    simp [applyPatch, heR, hmin, hmax]
    exact he.2
  · have hbad : jobPatchValid patchRangeBad = false := by decide
    simp [patchJobHandler, hbad]

/-- C5 witness: the amended statement at a concrete valid create body,
a concrete valid RANGE patch body, and the example store. -/
theorem c5_ctc_range_validation_witness :
     let d : JobPostData :=
      { companyId := "c1", title := "Dev", location := "Remote"
        role := "BACKEND_DEVELOPER", jobType := "REMOTE"
        ctcType := CtcType.RANGE, minCTC := 10, maxCTC := 20
        minExperience := 0, maxExperience := 3 }
    let e : JobPatchData :=
      { ctcType := some CtcType.RANGE, minCTC := some 10, maxCTC := some 20 }
    d.minCTC ≤ d.maxCTC ∧
    ((applyPatch e exampleJob).ctcType = CtcType.RANGE ∧
     ∃ lo hi, (applyPatch e exampleJob).minCTC = some lo ∧
       (applyPatch e exampleJob).maxCTC = some hi ∧ lo ≤ hi) ∧
    patchJobHandler "r1" "j1" patchRangeBad exampleStore = ⟨400, exampleStore⟩ :=
  c5_ctc_range_validation _ (by decide) rfl _ (by decide) rfl
    exampleJob "r1" "j1" exampleStore

/-- C6: the apply lifecycle.  For every apply call: 404 and an
unchanged store when the applicant profile is absent; 404 and an
unchanged store when the job is absent; 409 and an unchanged store
when an application for the pair already exists; otherwise 201 with
exactly one new application row appended, created in PENDING state. -/
theorem c6_apply_lifecycle (aid jid nid : String) (d : JobApplicationData)
    (st : Store) :
    (st.applicants.contains aid = false →
      applyHandler aid jid d nid st = ⟨404, st⟩) ∧
    (st.applicants.contains aid = true →
      (st.jobs.find? (fun j => j.id == jid)).isNone = true →
      applyHandler aid jid d nid st = ⟨404, st⟩) ∧
    (st.applicants.contains aid = true →
      (st.jobs.find? (fun j => j.id == jid)).isNone = false →
      st.applications.any (fun a => a.applicantId == aid && a.jobId == jid) = true →
      applyHandler aid jid d nid st = ⟨409, st⟩) ∧
    (st.applicants.contains aid = true →
      (st.jobs.find? (fun j => j.id == jid)).isNone = false →
      st.applications.any (fun a => a.applicantId == aid && a.jobId == jid) = false →
      applyHandler aid jid d nid st =
        ⟨201, { st with applications :=
                  st.applications ++ [newApplication nid aid jid d] }⟩) := by
  refine ⟨?_, ?_, ?_, ?_⟩
  · intro h1
    unfold applyHandler
    rw [h1]
    rfl
  · intro h1 h2
    unfold applyHandler
    rw [h1, h2]
    rfl
  · intro h1 h2 h3
    unfold applyHandler
    rw [h1, h2, h3]
    rfl
  · intro h1 h2 h3
    unfold applyHandler
    rw [h1, h2, h3]
    rfl

/-- C6 witness: at the concrete store, the duplicate apply answers 409
and leaves the store unchanged, and the fresh apply answers 201 with
the single new PENDING application. -/
theorem c6_apply_lifecycle_witness :
    applyHandler "alice" "j1" {} "a2" appliedStore = ⟨409, appliedStore⟩ ∧
    applyHandler "alice" "j1" {} "a1" exampleStore =
      ⟨201, { exampleStore with
                applications := [newApplication "a1" "alice" "j1" {}] }⟩ :=
  ⟨(c6_apply_lifecycle "alice" "j1" "a2" {} appliedStore).2.2.1
      (by decide) (by decide) (by decide),
   (c6_apply_lifecycle "alice" "j1" "a1" {} exampleStore).2.2.2
      (by decide) (by decide) (by decide)⟩

/-- C8: the status overwrite.  For every setStatus call with one of
the five statuses: 404 and an unchanged store when the application is
absent; given the application and its job, 403 and an unchanged store
when the caller is not the recruiter of that job; otherwise 200 with
the status column overwritten, whatever the current status was. -/
theorem c8_set_status (id rid : String) (s : ApplicationStatus) (st : Store) :
    (st.applications.find? (fun a => a.id == id) = none →
      setStatusHandler id rid s st = ⟨404, st⟩) ∧
    (∀ app job, st.applications.find? (fun a => a.id == id) = some app →
      st.jobs.find? (fun j => j.id == app.jobId) = some job →
      ((job.recruiterId == rid) = false →
        setStatusHandler id rid s st = ⟨403, st⟩) ∧
      ((job.recruiterId == rid) = true →
        setStatusHandler id rid s st =
          ⟨200, { st with
                    applications := overwriteStatus id s st.applications }⟩)) := by
  constructor
  · intro h
    simp [setStatusHandler, h]
  · intro app job happ hjob
    constructor <;> intro hrid <;> simp [setStatusHandler, happ, hjob, hrid]

/-- C8 witness: at the concrete store, the non-owning recruiter gets
403 and the owning recruiter overwrites PENDING with ACCEPTED. -/
theorem c8_set_status_witness :
    setStatusHandler "a1" "r0" ApplicationStatus.ACCEPTED appliedStore =
      ⟨403, appliedStore⟩ ∧
    setStatusHandler "a1" "r1" ApplicationStatus.ACCEPTED appliedStore =
      ⟨200, { appliedStore with
                applications := overwriteStatus "a1" ApplicationStatus.ACCEPTED
                  appliedStore.applications }⟩ :=
  ⟨((c8_set_status "a1" "r0" ApplicationStatus.ACCEPTED appliedStore).2
      exampleApplication exampleJob (by decide) (by decide)).1 (by decide),
   ((c8_set_status "a1" "r1" ApplicationStatus.ACCEPTED appliedStore).2
      exampleApplication exampleJob (by decide) (by decide)).2 (by decide)⟩

/-- C9: the save operation.  For every save call: 404 and an unchanged
store when the job is absent; 409 and an unchanged store — no
duplicate row — when a SavedJob for the pair already exists; otherwise
201 with exactly one new SavedJob row for the pair appended. -/
theorem c9_save (aid jid nid : String) (st : Store) :
    ((st.jobs.find? (fun j => j.id == jid)).isNone = true →
      saveJobHandler aid jid nid st = ⟨404, st⟩) ∧
    ((st.jobs.find? (fun j => j.id == jid)).isNone = false →
      st.savedJobs.any (fun s => s.jobId == jid && s.applicantId == aid) = true →
      saveJobHandler aid jid nid st = ⟨409, st⟩) ∧
    ((st.jobs.find? (fun j => j.id == jid)).isNone = false →
      st.savedJobs.any (fun s => s.jobId == jid && s.applicantId == aid) = false →
      saveJobHandler aid jid nid st =
        ⟨201, { st with savedJobs := st.savedJobs ++ [newSavedJob nid aid jid] }⟩) := by
  refine ⟨?_, ?_, ?_⟩
  · intro h1
    unfold saveJobHandler
    rw [h1]
    rfl
  · intro h1 h2
    unfold saveJobHandler
    rw [h1, h2]
    rfl
  · intro h1 h2
    unfold saveJobHandler
    rw [h1, h2]
    rfl

/-- C9 witness: at the concrete store, a fresh save answers 201 with
the single new row, saving an unknown job answers 404, and saving the
same job again answers 409 without a duplicate row. -/
theorem c9_save_witness :
    saveJobHandler "alice" "nope" "s1" exampleStore = ⟨404, exampleStore⟩ ∧
    saveJobHandler "alice" "j1" "s1" exampleStore = ⟨201, savedStore⟩ ∧
    saveJobHandler "alice" "j1" "s2" savedStore = ⟨409, savedStore⟩ :=
  ⟨(c9_save "alice" "nope" "s1" exampleStore).1 (by decide),
   (c9_save "alice" "j1" "s1" exampleStore).2.2 (by decide) (by decide),
   (c9_save "alice" "j1" "s2" savedStore).2.1 (by decide) (by decide)⟩

/-- C3 counterexample: a present but non-numeric `page` or `limit`
does not fall back to the defaults.  `parseInt("abc")` is `NaN`,
`Math.max(NaN, 1)` is `NaN`, so the handler hands an invalid
`skip`/`take` to the store and the request answers 500 — it produces
an error instead of page 1 / limit 25. -/
theorem c3_nan_counterexample :
    pageNumberOf { page := some "abc" } = none ∧
    limitNumberOf { limit := some "abc" } = none ∧
    getJobsHandler { page := some "abc" } none exampleStore =
      JobsResponse.serverError ∧
    getJobsHandler { limit := some "abc" } none exampleStore =
      JobsResponse.serverError := by
  decide

/-- C4 helper: the jobs handler answer is a function of the assembled
where clause together with the `page`, `limit` and `postedDate`
parameters. -/
theorem getJobsHandler_congr {q q' : JobsQuery} (u : Option String)
    (st : Store) (hpage : q.page = q'.page) (hlimit : q.limit = q'.limit)
    (hposted : q.postedDate = q'.postedDate)
    (hw : buildWhereClause q u = buildWhereClause q' u) :
    getJobsHandler q u st = getJobsHandler q' u st := by
  have hp : pageNumberOf q = pageNumberOf q' := by
    unfold pageNumberOf
    rw [hpage]
  have hl : limitNumberOf q = limitNumberOf q' := by
    unfold limitNumberOf
    rw [hlimit]
  have ho : orderOldestFirst q = orderOldestFirst q' := by
    unfold orderOldestFirst
    rw [hposted]
  unfold getJobsHandler
  rw [hp, hl, ho, hw]

/-- C4 helper: an absent list parameter contributes no tokens. -/
theorem activeTokens_none : activeTokens (none : Option String) = none := rfl

/-- C3 amended: `page` and `limit` are clamped whenever they parse —
`limit` into [1, 100] and `page` to a floor of 1 — and an absent
parameter falls back to the default (page 1, limit 25); but a present
value that does not parse as a number yields `NaN`, which is not
replaced by the default: the request then fails with the 500 response
instead of using page 1 / limit 25. -/
theorem c3_pagination_clamping (q : JobsQuery) (s t bad : String) (n m : Int)
    (hs : parseIntJS s = some n) (ht : parseIntJS t = some m)
    (hbad : parseIntJS bad = none) (u : Option String) (st : Store) :
    pageNumberOf { q with page := none } = some 1 ∧
    limitNumberOf { q with limit := none } = some 25 ∧
    pageNumberOf { q with page := some s } = some (max n 1) ∧
    limitNumberOf { q with limit := some t } = some (min (max m 1) 100) ∧
    getJobsHandler { q with page := some bad } u st =
      JobsResponse.serverError ∧
    getJobsHandler { q with limit := some bad } u st =
      JobsResponse.serverError := by
  have hpageBad : pageNumberOf { q with page := some bad } = none := by
    show jsMax (parseIntJS bad) 1 = none
    rw [hbad]
    rfl
  have hlimitBad : limitNumberOf { q with limit := some bad } = none := by
    show jsMin (jsMax (parseIntJS bad) 1) 100 = none
    rw [hbad]
    rfl
  refine ⟨rfl, rfl, ?_, ?_, ?_, ?_⟩
  · show jsMax (parseIntJS s) 1 = some (max n 1)
    rw [hs]
    rfl
  · show jsMin (jsMax (parseIntJS t) 1) 100 = some (min (max m 1) 100)
    rw [ht]
    rfl
  · unfold getJobsHandler
    rw [hpageBad]
  · unfold getJobsHandler
    rw [hlimitBad]
    rcases pageNumberOf { q with limit := some bad } with _ | p <;> rfl

/-- C3 witness: the amended statement at `page=0`, `limit=1000`,
`abc` as the malformed value, and the example store: page 0 clamps to
1, limit 1000 clamps to 100, absent parameters give the defaults, and
the malformed value produces the 500 answer. -/
theorem c3_pagination_clamping_witness :
    pageNumberOf { ({} : JobsQuery) with page := none } = some 1 ∧
    limitNumberOf { ({} : JobsQuery) with limit := none } = some 25 ∧
    pageNumberOf { ({} : JobsQuery) with page := some "0" } = some (max 0 1) ∧
    limitNumberOf { ({} : JobsQuery) with limit := some "1000" } =
      some (min (max 1000 1) 100) ∧
    getJobsHandler { ({} : JobsQuery) with page := some "abc" } none
      exampleStore = JobsResponse.serverError ∧
    getJobsHandler { ({} : JobsQuery) with limit := some "abc" } none
      exampleStore = JobsResponse.serverError :=
  c3_pagination_clamping {} "0" "1000" "abc" 0 1000 (by decide) (by decide)
    (by decide) none exampleStore

/-- C4: a list filter parameter (roles, skills, jobType, location,
workMode, department, companyType) that is absent, or whose
comma-separated value trims to an empty token list
(`activeTokens v = none`), imposes no constraint: the route answers
exactly as for the same request without that parameter, for any
caller token and store. -/
theorem c4_empty_filter_lists (q : JobsQuery) (v : Option String)
    (hv : activeTokens v = none) (tok : Option String) (st : Store) :
    routeGetJobs tok { q with roles := v } st =
      routeGetJobs tok { q with roles := none } st ∧
    routeGetJobs tok { q with skills := v } st =
      routeGetJobs tok { q with skills := none } st ∧
    routeGetJobs tok { q with jobType := v } st =
      routeGetJobs tok { q with jobType := none } st ∧
    routeGetJobs tok { q with location := v } st =
      routeGetJobs tok { q with location := none } st ∧
    routeGetJobs tok { q with workMode := v } st =
      routeGetJobs tok { q with workMode := none } st ∧
    routeGetJobs tok { q with department := v } st =
      routeGetJobs tok { q with department := none } st ∧
    routeGetJobs tok { q with companyType := v } st =
      routeGetJobs tok { q with companyType := none } st := by
  refine ⟨?_, ?_, ?_, ?_, ?_, ?_, ?_⟩ <;>
    exact getJobsHandler_congr none st rfl rfl rfl
      (by unfold buildWhereClause; dsimp only; rw [hv, activeTokens_none]; rfl)

/-- C4 witness: the statement at the token list `" , "`, which trims
to no tokens, over the example store. -/
theorem c4_empty_filter_lists_witness :
    routeGetJobs none { ({} : JobsQuery) with roles := some " , " }
        exampleStore =
      routeGetJobs none { ({} : JobsQuery) with roles := none } exampleStore ∧
    routeGetJobs none { ({} : JobsQuery) with skills := some " , " }
        exampleStore =
      routeGetJobs none { ({} : JobsQuery) with skills := none } exampleStore ∧
    routeGetJobs none { ({} : JobsQuery) with jobType := some " , " }
        exampleStore =
      routeGetJobs none { ({} : JobsQuery) with jobType := none } exampleStore ∧
    routeGetJobs none { ({} : JobsQuery) with location := some " , " }
        exampleStore =
      routeGetJobs none { ({} : JobsQuery) with location := none } exampleStore ∧
    routeGetJobs none { ({} : JobsQuery) with workMode := some " , " }
        exampleStore =
      routeGetJobs none { ({} : JobsQuery) with workMode := none } exampleStore ∧
    routeGetJobs none { ({} : JobsQuery) with department := some " , " }
        exampleStore =
      routeGetJobs none { ({} : JobsQuery) with department := none }
        exampleStore ∧
    routeGetJobs none { ({} : JobsQuery) with companyType := some " , " }
        exampleStore =
      routeGetJobs none { ({} : JobsQuery) with companyType := none }
        exampleStore :=
  c4_empty_filter_lists {} (some " , ") (by decide) none exampleStore

/-- C7 helper: a pair outside a row list has row count zero. -/
theorem rowCount_eq_zero {p : String × String}
    {l : List (String × String)} (h : p ∉ l) : rowCount p l = 0 := by
  induction l with
  | nil => rfl
  | cons q l ih =>
    simp only [List.mem_cons, not_or] at h
    have hq : ¬q = p := fun hq => h.1 hq.symm
    simp [rowCount, ih h.2, hq]

/-- C7 helper: a pair inside a row list has positive row count. -/
theorem rowCount_pos {p : String × String}
    {l : List (String × String)} (h : p ∈ l) : 1 ≤ rowCount p l := by
  induction l with
  | nil => cases h
  | cons q l ih =>
    rcases List.mem_cons.mp h with h1 | h1
    · simp [rowCount, h1]
    · have := ih h1
      simp [rowCount]
      omega

/-- C7 helper: the race invariant is symmetric in the two requests. -/
theorem raceInv_swap {p : String × String} {c : RaceConfig}
    (h : RaceInv p c) : RaceInv p (swapConfig c) := by
  obtain ⟨hmem, hboth, haf, hbf, hcnt⟩ := h
  exact ⟨by rw [show (swapConfig c).db = c.db from rfl]; exact hmem.trans or_comm,
    fun hc => hboth ⟨hc.2, hc.1⟩, hbf, haf, hcnt⟩

/-- C7 helper: a step of request B is the mirror image of a step of
request A from the mirrored configuration. -/
theorem raceStep_false_eq_swap (p : String × String) (c : RaceConfig) :
    raceStep p c false = swapConfig (raceStep p (swapConfig c) true) := rfl

/-- C7 helper: one step of request A preserves the race invariant. -/
theorem raceInv_stepA (p : String × String) (c : RaceConfig)
    (h : RaceInv p c) : RaceInv p (raceStep p c true) := by
  obtain ⟨hmem, hboth, haf, hbf, hcnt⟩ := h
  cases ha : c.a with
  | start =>
    by_cases hp : p ∈ c.db
    · have hb : c.b = OpLocal.done ApplyOutcome.created := by
        rcases hmem.mp hp with h1 | h1
        · rw [ha] at h1; cases h1
        · exact h1
      simp only [raceStep, opStep, ha, if_pos hp]
      refine ⟨?_, ?_, ?_, ?_, ?_⟩
      · simpa [hb] using hp
      · simp
      · intro _; exact hb
      · intro hfail; rw [hb] at hfail; rcases hfail with h1 | h1 <;> cases h1
      · exact hcnt
    · have hbnot : ¬c.b = OpLocal.done ApplyOutcome.created := by
        intro hb
        exact hp (hmem.mpr (Or.inr hb))
      simp only [raceStep, opStep, ha, if_neg hp]
      refine ⟨?_, ?_, ?_, ?_, ?_⟩
      · simp [hp, hbnot]
      · simp
      · intro hfail; rcases hfail with h1 | h1 <;> cases h1
      · intro hfail
        have := hbf hfail
        rw [ha] at this; cases this
      · exact hcnt
  | readyInsert =>
    by_cases hp : p ∈ c.db
    · have hb : c.b = OpLocal.done ApplyOutcome.created := by
        rcases hmem.mp hp with h1 | h1
        · rw [ha] at h1; cases h1
        · exact h1
      simp only [raceStep, opStep, ha, if_pos hp]
      refine ⟨?_, ?_, ?_, ?_, ?_⟩
      · simpa [hb] using hp
      · simp
      · intro _; exact hb
      · intro hfail; rw [hb] at hfail; rcases hfail with h1 | h1 <;> cases h1
      · exact hcnt
    · have hbnot : ¬c.b = OpLocal.done ApplyOutcome.created := by
        intro hb
        exact hp (hmem.mpr (Or.inr hb))
      simp only [raceStep, opStep, ha, if_neg hp]
      refine ⟨?_, ?_, ?_, ?_, ?_⟩
      · simp
      · simp [hbnot]
      · intro hfail; rcases hfail with h1 | h1 <;> cases h1
      · intro hfail
        have := hbf hfail
        rw [ha] at this; cases this
      · show rowCount p (p :: c.db) ≤ 1
        simp [rowCount, rowCount_eq_zero hp]
  | done o =>
    simp only [raceStep, opStep, ha]
    exact ⟨by simpa [ha] using hmem, by simpa [ha] using hboth,
      by simpa [ha] using haf, fun hfail => by simpa [ha] using hbf hfail, hcnt⟩

/-- C7 helper: every scheduler step preserves the race invariant. -/
theorem raceInv_step (p : String × String) (c : RaceConfig) (ch : Bool)
    (h : RaceInv p c) : RaceInv p (raceStep p c ch) := by
  cases ch with
  | true => exact raceInv_stepA p c h
  | false =>
    rw [raceStep_false_eq_swap]
    exact raceInv_swap (raceInv_stepA p (swapConfig c) (raceInv_swap h))

/-- C7 helper: every schedule preserves the race invariant. -/
theorem raceInv_run (p : String × String) (sched : List Bool)
    (c : RaceConfig) (h : RaceInv p c) : RaceInv p (raceRun p sched c) := by
  induction sched generalizing c with
  | nil => exact h
  | cons ch sched ih => exact ih _ (raceInv_step p c ch h)

/-- C7 helper: the race invariant holds before either request has
acted, provided no application row for the pair exists yet. -/
theorem raceInv_init (p : String × String) (db0 : List (String × String))
    (h0 : p ∉ db0) : RaceInv p ⟨OpLocal.start, OpLocal.start, db0⟩ := by
  refine ⟨?_, ?_, ?_, ?_, ?_⟩
  · simp [h0]
  · simp
  · intro hfail; rcases hfail with h1 | h1 <;> cases h1
  · intro hfail; rcases hfail with h1 | h1 <;> cases h1
  · simp [rowCount_eq_zero h0]

/-- C7 counterexample: under the interleaving check-A, check-B,
insert-A, insert-B starting from no row, request A answers 201 and the
losing request B answers 500 — not 409 — because its insert hits the
unique index inside the generic catch block. -/
theorem c7_loser_gets_500_counterexample :
    raceRun ("alice", "j1") [true, false, true, false]
        ⟨OpLocal.start, OpLocal.start, []⟩ =
      ⟨OpLocal.done ApplyOutcome.created,
       OpLocal.done ApplyOutcome.internal500, [("alice", "j1")]⟩ ∧
    ApplyOutcome.internal500 ≠ ApplyOutcome.conflict409 := by
  decide

/-- C7 amended: for every schedule under which both racing apply
requests for the pair finish, starting from a store with no row for
the pair, exactly one application row for the pair results and exactly
one of the two requests created it; the losing request answers 409 or
500, not necessarily 409 (the duplicate check is check-then-insert,
so the loser of the racing interleaving answers 500, while 409 is
answered only when the winning insert is already visible at check
time). -/
theorem c7_one_row_one_winner (p : String × String)
    (db0 : List (String × String)) (h0 : p ∉ db0) (sched : List Bool)
    (oa ob : ApplyOutcome)
    (ha : (raceRun p sched ⟨OpLocal.start, OpLocal.start, db0⟩).a =
      OpLocal.done oa)
    (hb : (raceRun p sched ⟨OpLocal.start, OpLocal.start, db0⟩).b =
      OpLocal.done ob) :
    rowCount p (raceRun p sched ⟨OpLocal.start, OpLocal.start, db0⟩).db = 1 ∧
    ((oa = ApplyOutcome.created ∧ ob ≠ ApplyOutcome.created) ∨
     (ob = ApplyOutcome.created ∧ oa ≠ ApplyOutcome.created)) := by
  obtain ⟨hmem, hboth, haf, hbf, hcnt⟩ :=
    raceInv_run p sched _ (raceInv_init p db0 h0)
  have hone : oa = ApplyOutcome.created ∨ ob = ApplyOutcome.created := by
    cases oa with
    | created => exact Or.inl rfl
    | conflict409 =>
      have h2 := haf (Or.inl ha)
      rw [hb] at h2
      exact Or.inr (OpLocal.done.inj h2)
    | internal500 =>
      have h2 := haf (Or.inr ha)
      rw [hb] at h2
      exact Or.inr (OpLocal.done.inj h2)
  constructor
  · have hmem1 : p ∈ (raceRun p sched ⟨OpLocal.start, OpLocal.start, db0⟩).db := by
      apply hmem.mpr
      rcases hone with h1 | h1
      · exact Or.inl (by rw [ha, h1])
      · exact Or.inr (by rw [hb, h1])
    have := rowCount_pos hmem1
    omega
  · rcases hone with h1 | h1
    · refine Or.inl ⟨h1, ?_⟩
      intro h2
      exact hboth ⟨by rw [ha, h1], by rw [hb, h2]⟩
    · by_cases h2 : oa = ApplyOutcome.created
      · refine Or.inl ⟨h2, ?_⟩
        intro h3
        exact hboth ⟨by rw [ha, h2], by rw [hb, h3]⟩
      · exact Or.inr ⟨h1, h2⟩

/-- C7 witness: the amended statement at the sequential schedule
check-A, insert-A, check-B from the empty store: one row results,
request A created it, and request B did not. -/
theorem c7_one_row_one_winner_witness :
    rowCount ("alice", "j1")
        (raceRun ("alice", "j1") [true, true, false]
          ⟨OpLocal.start, OpLocal.start, []⟩).db = 1 ∧
    ((ApplyOutcome.created = ApplyOutcome.created ∧
      ApplyOutcome.conflict409 ≠ ApplyOutcome.created) ∨
     (ApplyOutcome.conflict409 = ApplyOutcome.created ∧
      ApplyOutcome.created ≠ ApplyOutcome.created)) :=
  c7_one_row_one_winner ("alice", "j1") [] (by decide) [true, true, false]
    ApplyOutcome.created ApplyOutcome.conflict409 (by decide) (by decide)

end Gyw
